import Mathlib

/-!
Verification of the hn-backend ingestion-and-extraction pipeline.

The Python sources under src/ are shallowly embedded below:
  - services/hn_api_service.py   : HNAPIService (fetch_story, fetch_comment,
    fetch_comments_batch) over an explicit model of HTTP responses;
  - database/db_layer.py         : HNDatabase (create_story, batch_create_comments,
    update_comment_status, get_comments_by_hn_id, get_pending_comments) over an
    explicit record-store state;
  - services/processing_service.py : ClaudeProcessingService (_clean_html_text,
    process_pending_comments, process_single_comment,
    _update_comment_with_results) with the LLM call abstracted as an oracle
    function from cleaned text to an optional structured payload.

Exceptions raised by the Python code are modelled with Except over a PyError
type whose constructors mirror the exception classes that matter to control
flow (HNAPIError, httpx.HTTPStatusError, pydantic.ValidationError,
DatabaseError, ValueError).
-/

namespace HNBackend

/-- Errors (Python exception classes) that drive control flow in the source. -/
inductive PyError where
  | hnApiError : String → PyError
  | httpStatusError : Nat → PyError
  | validationError : String → PyError
  | databaseError : String → PyError
  | valueError : String → PyError
  deriving DecidableEq, Repr

/-! ## Text normalization (processing_service.py, _clean_html_text)

Python's str.replace substitutes every non-overlapping occurrence of the
pattern, scanning left to right.  We embed it on lists of characters with a
fuel argument equal to the input length so that the function is structurally
recursive (and hence evaluates by decide/rfl). -/

/-- Does the pattern occur at the head of the text? (Python: text.startswith(pat)). -/
def leadsWith : List Char → List Char → Bool
  | [], _ => true
  | _ :: _, [] => false
  | p :: ps, c :: cs => p == c && leadsWith ps cs

/-- One left-to-right pass replacing every non-overlapping occurrence of pat
by rep, as Python str.replace does for a non-empty pattern.  fuel bounds the
number of characters consumed; with fuel = length of the text the fuel is
never exhausted. -/
def replaceAllFuel (pat rep : List Char) : Nat → List Char → List Char
  | _, [] => []
  | 0, s => s
  | fuel + 1, c :: rest =>
    if pat ≠ [] ∧ leadsWith pat (c :: rest) then
      rep ++ replaceAllFuel pat rep fuel (rest.drop (pat.length - 1))
    else
      c :: replaceAllFuel pat rep fuel rest

/-- Python str.replace (non-empty pattern). -/
def replaceAll (pat rep s : List Char) : List Char :=
  replaceAllFuel pat rep s.length s

/-- processing_service.py lines 149-160:
cleaned = raw_text.replace('&#x2F;', '/').replace('&amp;', '&'). -/
def clean_html_text (raw_text : String) : String :=
  String.mk (replaceAll "&amp;".toList "&".toList
    (replaceAll "&#x2F;".toList "/".toList raw_text.toList))

/-! ## HN API service (services/hn_api_service.py)

The remote forum API is modelled by the HTTP response the client observes for
a given item id.  httpx semantics embedded here:
  - a transport-level failure during the GET raises httpx.RequestError, which
    both fetchers catch and re-raise as HNAPIError;
  - response.raise_for_status() raises httpx.HTTPStatusError for any 4xx/5xx
    status; that exception class is NOT a subclass of httpx.RequestError, so
    it escapes the except clause of fetch_story/fetch_comment;
  - response.json() may be the JSON literal null (the HN API returns null for
    missing items with status 200); Python's "data if data else None" maps a
    null/empty body to None.  The body is therefore an Option payload. -/

/-- A raw forum item as the JSON body of a 200 response.  Only the fields the
pipeline inspects are carried. -/
structure ItemPayload where
  id : Int
  deleted : Option Bool := none
  text : String := ""
  kids : List Int := []
  deriving DecidableEq, Repr

/-- What the HTTP client observes for one request. -/
inductive HTTPResult where
  | transportError : String → HTTPResult
  | response : Nat → Option ItemPayload → HTTPResult
  deriving DecidableEq, Repr

/-- hn_api_service.py lines 31-55 (fetch_story): 404 raises HNAPIError;
raise_for_status raises httpx.HTTPStatusError for other error statuses, which
is not caught; a transport error is wrapped into HNAPIError; otherwise the
parsed body (None for a null body) is returned. -/
def fetch_story (story_id : Int) (r : HTTPResult) :
    Except PyError (Option ItemPayload) :=
  match r with
  | .transportError msg => .error (.hnApiError ("API request failed: " ++ msg))
  | .response status body =>
    if status = 404 then
      .error (.hnApiError ("Story " ++ toString story_id ++ " not found or deleted"))
    else if 400 ≤ status then
      .error (.httpStatusError status)
    else
      .ok body

/-- hn_api_service.py lines 59-83 (fetch_comment): identical control flow to
fetch_story, with the 404 message naming the comment. -/
def fetch_comment (comment_id : Int) (r : HTTPResult) :
    Except PyError (Option ItemPayload) :=
  match r with
  | .transportError msg => .error (.hnApiError ("API request failed: " ++ msg))
  | .response status body =>
    if status = 404 then
      .error (.hnApiError ("Comment " ++ toString comment_id ++ " not found or deleted"))
    else if 400 ≤ status then
      .error (.httpStatusError status)
    else
      .ok body

/-- hn_api_service.py lines 85-124 (fetch_comments_batch): for each id fetch
the comment; a None result (deleted/missing) is skipped, a payload whose
deleted flag is true is skipped, HNAPIError and pydantic.ValidationError are
caught, logged and skipped; any other exception (in particular
httpx.HTTPStatusError from raise_for_status) propagates and aborts the loop.
remote gives the HTTP response observed for each requested id. -/
def fetch_comments_batch (remote : Int → HTTPResult) :
    List Int → Except PyError (List ItemPayload)
  | [] => .ok []
  | comment_id :: rest =>
    match fetch_comment comment_id (remote comment_id) with
    | .error (.hnApiError _) => fetch_comments_batch remote rest
    | .error (.validationError _) => fetch_comments_batch remote rest
    | .error e => .error e
    | .ok none => fetch_comments_batch remote rest
    | .ok (some payload) =>
      if payload.deleted = some true then
        fetch_comments_batch remote rest
      else
        match fetch_comments_batch remote rest with
        | .error e => .error e
        | .ok tail => .ok (payload :: tail)

/-! ## Record store (database/db_layer.py)

Supabase/PostgREST over two Postgres tables is modelled as in-memory lists of
rows.  Semantics embedded:
  - select ... .eq(col, v) returns the matching rows in table order;
  - insert of a row whose unique column (hn_id, evidenced by the
    on_conflict clause of create_comment) collides with an existing row, or
    of a batch with an internal collision, is rejected by the unique
    constraint and raises; db_layer wraps that into DatabaseError;
  - upsert with ignore_duplicates skips colliding rows;
  - update(...).eq("hn_id", v) applies the given column assignments to every
    matching row and returns the updated rows. -/

/-- The structured payload produced by LLM extraction (the validated
OpenAIProcessData dict).  Only the email key is inspected by the store layer
(update_comment_status reads structured_data.get("email")); the remaining
keys are carried opaquely as rest. -/
structure JobData where
  email : Option String := none
  rest : List (String × String) := []
  deriving DecidableEq, Repr

/-- A row of the comments table. -/
structure CommentRow where
  hn_id : Int
  story_id : Int
  story_text : String
  processed_status : String
  structured_data : Option JobData := none
  email : Option String := none
  deriving DecidableEq, Repr

/-- A row of the stories table; id is the store-assigned internal key. -/
structure StoryRow where
  id : Nat
  hn_id : Int
  title : Option String := none
  kids_count : Int := 0
  month : String := "month"
  descendants_count : Int := 0
  score : Int := 0
  deriving DecidableEq, Repr

/-- The stories table plus the sequence feeding the internal id column. -/
structure StoryStore where
  rows : List StoryRow
  nextId : Nat
  deriving DecidableEq, Repr

/-- The story_data dict passed to create_story (db_layer.py lines 36-44),
without the store-assigned id. -/
structure StoryData where
  hn_id : Int
  title : Option String := none
  kids_count : Int := 0
  month : String := "month"
  descendants_count : Int := 0
  score : Int := 0
  deriving DecidableEq, Repr

/-- db_layer.py lines 32-58 (create_story): select the rows whose hn_id
matches; if any exist return the first one and leave the table untouched;
otherwise insert the new row and return it. -/
def create_story (store : StoryStore) (d : StoryData) : StoryRow × StoryStore :=
  match store.rows.find? (fun r => r.hn_id == d.hn_id) with
  | some existing => (existing, store)
  | none =>
    let newRow : StoryRow :=
      { id := store.nextId, hn_id := d.hn_id, title := d.title,
        kids_count := d.kids_count, month := d.month,
        descendants_count := d.descendants_count, score := d.score }
    (newRow, { rows := store.rows ++ [newRow], nextId := store.nextId + 1 })

/-- A comment dict as assembled by the ingestion workflow for bulk insertion
(DatabaseCommentData.model_dump(): no email key, so the email column takes
its default null on insert). -/
structure NewComment where
  hn_id : Int
  story_id : Int
  story_text : String
  processed_status : String := "pending"
  deriving DecidableEq, Repr

/-- The comment row materialized by inserting a NewComment dict. -/
def insertRow (n : NewComment) : CommentRow :=
  { hn_id := n.hn_id, story_id := n.story_id, story_text := n.story_text,
    processed_status := n.processed_status }

/-- No two elements repeat (Postgres accepts a multi-row insert only when the
unique column is collision-free within the batch as well). -/
def allDistinct : List Int → Bool
  | [] => true
  | x :: xs => !xs.contains x && allDistinct xs

/-- db_layer.py lines 158-172 (batch_create_comments): an empty list returns
0 without touching the store; otherwise a plain (non-upsert) insert is
issued, so any hn_id collision with an existing row or within the batch is a
unique-constraint violation; the except clause wraps it into DatabaseError.
On success the store-reported inserted count (the full batch) is returned. -/
def batch_create_comments (store : List CommentRow) (comments_data : List NewComment) :
    Except PyError (Nat × List CommentRow) :=
  if comments_data.isEmpty then
    .ok (0, store)
  else if comments_data.any (fun n => (store.map (·.hn_id)).contains n.hn_id)
      || !allDistinct (comments_data.map (·.hn_id)) then
    .error (.databaseError
      "Error batch creating comments: duplicate key value violates unique constraint")
  else
    .ok (comments_data.length, store ++ comments_data.map insertRow)

/-- db_layer.py lines 123-129 (get_comments_by_hn_id): select the rows whose
hn_id matches ([] when none do). -/
def get_comments_by_hn_id (store : List CommentRow) (hn_id : Int) : List CommentRow :=
  store.filter (fun r => r.hn_id == hn_id)

/-- db_layer.py lines 131-137 (get_pending_comments): rows whose
processed_status is pending, capped at limit (default 1000). -/
def get_pending_comments (store : List CommentRow) (limit : Nat := 1000) :
    List CommentRow :=
  (store.filter (fun r => r.processed_status == "pending")).take limit

/-- The column assignments applied by update_comment_status to one matching
row (db_layer.py lines 142-151): always set processed_status; with a non-null
dict also set structured_data, and set email only when the dict carries a
non-null email; with a null dict explicitly clear structured_data and email. -/
def applyCommentUpdate (status : String) (structured_data : Option JobData)
    (r : CommentRow) : CommentRow :=
  match structured_data with
  | some d =>
    { r with processed_status := status, structured_data := some d,
             email := match d.email with | some e => some e | none => r.email }
  | none =>
    { r with processed_status := status, structured_data := none, email := none }

/-- db_layer.py lines 139-156 (update_comment_status): apply the assignments
to every row whose hn_id matches comment_id; the returned Bool is whether any
row was updated (len(response.data) > 0). -/
def update_comment_status (store : List CommentRow) (comment_id : Int)
    (status : String) (structured_data : Option JobData) :
    Bool × List CommentRow :=
  (store.any (fun r => r.hn_id == comment_id),
   store.map (fun r =>
     if r.hn_id == comment_id then applyCommentUpdate status structured_data r
     else r))

/-! ## Extraction workflow (services/processing_service.py)

_extract_job_data_with_claude calls the LLM, parses the response as JSON and
validates it; any exception anywhere in that block yields None.  It is
abstracted as an oracle llm : String → Option JobData applied to the cleaned
text.  The store operations are total in this model, so the DatabaseError
fallback path of _update_comment_with_results (lines 245-255) is never taken
and the function reduces to the update it delegates on lines 240-244. -/

/-- processing_service.py lines 236-255 (_update_comment_with_results): the
status parameter defaults to completed; the results are forwarded to
update_comment_status. -/
def update_comment_with_results (store : List CommentRow) (comment_id : Int)
    (structured_data : Option JobData) (status : String := "completed") :
    Bool × List CommentRow :=
  update_comment_status store comment_id status structured_data

/-- The summary dict returned by bulk-mode extraction. -/
structure BulkRunResult where
  processed_count : Nat
  successful_count : Nat
  failed_count : Nat
  errors : List String
  deriving DecidableEq, Repr

/-- The per-comment loop of process_pending_comments (lines 71-89), threading
the store and the three counters exactly as the Python loop does: a None
extraction writes status error and bumps failed_count; a non-None extraction
writes status completed and bumps successful_count when the update matched a
row, failed_count otherwise.  processed is the processed_count variable: it
is in scope but no iteration modifies it. -/
def bulkLoop (llm : String → Option JobData) (store : List CommentRow) :
    List CommentRow → Nat → Nat → Nat → List CommentRow × Nat × Nat × Nat
  | [], processed, succ, failed => (store, processed, succ, failed)
  | comment :: rest, processed, succ, failed =>
    let cleaned := clean_html_text comment.story_text
    match llm cleaned with
    | none =>
      let (_, store2) := update_comment_with_results store comment.hn_id none "error"
      bulkLoop llm store2 rest processed succ (failed + 1)
    | some d =>
      let (value, store2) :=
        update_comment_with_results store comment.hn_id (some d) "completed"
      if value then bulkLoop llm store2 rest processed (succ + 1) failed
      else bulkLoop llm store2 rest processed succ (failed + 1)

/-- processing_service.py lines 53-97 (process_pending_comments): snapshot the
pending comments, run the loop with all counters starting at 0, and return
the summary dict built on lines 90-95.  No iteration can raise in this model,
so errors is empty. -/
def process_pending_comments (llm : String → Option JobData)
    (store : List CommentRow) : BulkRunResult × List CommentRow :=
  let pending := get_pending_comments store
  let (store2, processed, succ, failed) := bulkLoop llm store pending 0 0 0
  ({ processed_count := processed, successful_count := succ,
     failed_count := failed, errors := [] }, store2)

/-- The result dict of single-mode extraction (lines 132-137 on success,
lines 143-147 on failure). -/
structure SingleResult where
  success : Bool
  hn_id : Int
  extracted_data : Option JobData := none
  database_updated : Option Bool := none
  error : Option String := none
  deriving DecidableEq, Repr

/-- processing_service.py lines 99-147 (process_single_comment): look up the
comment rows for hn_id; when none exist the raised ValueError is caught by
the blanket except and returned as a failure dict with its message; otherwise
clean the first row's text, run extraction, and persist via
_update_comment_with_results with its default status argument (the call on
line 128 passes no status). -/
def process_single_comment (llm : String → Option JobData)
    (store : List CommentRow) (hn_id : Int) : SingleResult × List CommentRow :=
  match get_comments_by_hn_id store hn_id with
  | [] =>
    ({ success := false, hn_id := hn_id,
       error := some ("No comment found with HN ID " ++ toString hn_id) }, store)
  | comment :: _ =>
    let cleaned := clean_html_text comment.story_text
    let structured := llm cleaned
    let (update_success, store2) :=
      update_comment_with_results store comment.hn_id structured
    ({ success := true, hn_id := hn_id, extracted_data := structured,
       database_updated := some update_success }, store2)

/-- The per-item outcomes of fetch_comment that the batch loop of
fetch_comments_batch catches or keeps (ok results, HNAPIError,
ValidationError); an outcome outside this set propagates out of the loop. -/
def survivesBatch : Except PyError (Option ItemPayload) → Bool
  | .error (.hnApiError _) => true
  | .error (.validationError _) => true
  | .error _ => false
  | .ok _ => true

/-- The payloads the batch loop keeps, in input order: those ids whose fetch
returns a payload whose deleted flag is not true. -/
def batchKept (remote : Int → HTTPResult) (ids : List Int) : List ItemPayload :=
  ids.filterMap (fun i =>
    match fetch_comment i (remote i) with
    | .ok (some p) => if p.deleted = some true then none else some p
    | _ => none)

/-! ## Helper lemmas -/

theorem replaceAllFuel_no_amp (p rep : List Char) :
    ∀ (fuel : Nat) (s : List Char), (∀ c ∈ s, c ≠ '&') →
      replaceAllFuel ('&' :: p) rep fuel s = s := by
  intro fuel
  induction fuel with
  | zero =>
    intro s _
    cases s <;> rfl
  | succ n ih =>
    intro s h
    cases s with
    | nil => rfl
    | cons c rest =>
      have hc : c ≠ '&' := h c (List.mem_cons_self c rest)
      have hrest : ∀ x ∈ rest, x ≠ '&' := fun x hx => h x (List.mem_cons_of_mem c hx)
      have hlead : ¬(('&' :: p) ≠ [] ∧ leadsWith ('&' :: p) (c :: rest) = true) := by
        rintro ⟨-, hl⟩
        simp only [leadsWith, Bool.and_eq_true, beq_iff_eq] at hl
        exact hc hl.1.symm
      rw [replaceAllFuel, if_neg hlead, ih rest hrest]

theorem replaceAll_no_amp (p rep : List Char) (s : List Char)
    (h : ∀ c ∈ s, c ≠ '&') : replaceAll ('&' :: p) rep s = s :=
  replaceAllFuel_no_amp p rep s.length s h

/-! ## Claim theorems -/

/-- C9: the normalization step replaces every occurrence of the entity
escapes (in particular the given concrete input becomes /test&path) and makes
no other change: on text free of the ampersand character that starts both
patterns it is the identity. -/
theorem clean_html_text_correct :
    clean_html_text "&#x2F;test&amp;path" = "/test&path" ∧
    clean_html_text "a&amp;b&#x2F;c&#x2F;" = "a&b/c/" ∧
    ∀ s : String, (∀ c ∈ s.toList, c ≠ '&') → clean_html_text s = s := by
  refine ⟨by decide, by decide, ?_⟩
  intro s h
  unfold clean_html_text
  have h1 : replaceAll "&#x2F;".toList "/".toList s.toList = s.toList := by
    have he : "&#x2F;".toList = '&' :: "#x2F;".toList := rfl
    rw [he]
    exact replaceAll_no_amp _ _ _ h
  rw [h1]
  have h2 : replaceAll "&amp;".toList "&".toList s.toList = s.toList := by
    have he : "&amp;".toList = '&' :: "amp;".toList := rfl
    rw [he]
    exact replaceAll_no_amp _ _ _ h
  rw [h2]
  cases s with
  | mk data => rfl

/-- Witness for C9: the general clause applied to a concrete entity-free
text. -/
theorem clean_html_text_correct_witness :
    clean_html_text "hiring: backend dev" = "hiring: backend dev" :=
  clean_html_text_correct.2.2 "hiring: backend dev" (by decide)

/-- C4 counterexample: a 404 response makes fetch_comment raise the typed
API failure HNAPIError (hn_api_service.py lines 75-76), not return the
absent outcome the claim asserts. -/
theorem fetch_comment_404_typed_failure :
    fetch_comment 7 (HTTPResult.response 404 none) =
      Except.error (PyError.hnApiError "Comment 7 not found or deleted") := rfl

/-- C4 amended: on a 404 both fetch_comment and fetch_story surface a typed
API failure; the absent (None) outcome of fetch_comment arises from a 200
response with a null body, and it is the batch loop that converts the typed
failure into a skip. -/
theorem fetch_comment_404_vs_story :
    ∀ (i : Int) (b : Option ItemPayload),
      fetch_comment i (HTTPResult.response 404 b) =
        Except.error (PyError.hnApiError
          ("Comment " ++ toString i ++ " not found or deleted")) ∧
      fetch_story i (HTTPResult.response 404 b) =
        Except.error (PyError.hnApiError
          ("Story " ++ toString i ++ " not found or deleted")) ∧
      fetch_comment i (HTTPResult.response 200 none) = Except.ok none :=
  fun _ _ => ⟨rfl, rfl, rfl⟩

/-- C3 counterexample: a non-404 error status (here 500) raised by
raise_for_status is an httpx.HTTPStatusError, which neither fetch_comment nor
the batch loop catches, so a single bad item aborts the whole batch instead
of being skipped. -/
theorem fetch_comments_batch_500_aborts :
    fetch_comments_batch (fun _ => HTTPResult.response 500 none) [1] =
      Except.error (PyError.httpStatusError 500) := rfl

/-- C3 amended: whenever every per-item fetch outcome is one the loop
handles (a returned payload or absence, an HNAPIError, or a ValidationError),
each failing or absent item is skipped and the batch returns the list of
kept payloads; only an outcome outside that set (an HTTP status error from a
non-404 error response) aborts the batch. -/
theorem fetch_comments_batch_skips_caught_failures :
    ∀ (remote : Int → HTTPResult) (ids : List Int),
      (∀ i ∈ ids, survivesBatch (fetch_comment i (remote i)) = true) →
      fetch_comments_batch remote ids = Except.ok (batchKept remote ids) := by
  intro remote ids
  induction ids with
  | nil => intro _; rfl
  | cons i rest ih =>
    intro h
    have hi := h i (List.mem_cons_self i rest)
    have ihr := ih fun x hx => h x (List.mem_cons_of_mem i hx)
    show (match fetch_comment i (remote i) with
      | .error (.hnApiError _) => fetch_comments_batch remote rest
      | .error (.validationError _) => fetch_comments_batch remote rest
      | .error e => .error e
      | .ok none => fetch_comments_batch remote rest
      | .ok (some payload) =>
        if payload.deleted = some true then
          fetch_comments_batch remote rest
        else
          match fetch_comments_batch remote rest with
          | .error e => .error e
          | .ok tail => .ok (payload :: tail)) =
      Except.ok (batchKept remote (i :: rest))
    cases hfc : fetch_comment i (remote i) with
    | error e =>
      cases e with
      | hnApiError m => rw [ihr]; simp [batchKept, List.filterMap_cons, hfc]
      | validationError m => rw [ihr]; simp [batchKept, List.filterMap_cons, hfc]
      | httpStatusError s => rw [hfc] at hi; exact Bool.noConfusion hi
      | databaseError m => rw [hfc] at hi; exact Bool.noConfusion hi
      | valueError m => rw [hfc] at hi; exact Bool.noConfusion hi
    | ok ob =>
      cases ob with
      | none => rw [ihr]; simp [batchKept, List.filterMap_cons, hfc]
      | some payload =>
        show (if payload.deleted = some true then
                fetch_comments_batch remote rest
              else
                match fetch_comments_batch remote rest with
                | .error e => .error e
                | .ok tail => .ok (payload :: tail)) =
            Except.ok (batchKept remote (i :: rest))
        by_cases hd : payload.deleted = some true
        · rw [if_pos hd, ihr]
          simp [batchKept, List.filterMap_cons, hfc, hd]
        · rw [if_neg hd, ihr]
          simp [batchKept, List.filterMap_cons, hfc, hd]

/-- Witness for C3 amended: a batch whose single item 404s (a caught
HNAPIError) still returns a result list. -/
theorem fetch_comments_batch_skips_caught_failures_witness :
    fetch_comments_batch (fun _ => HTTPResult.response 404 none) [1, 2] =
      Except.ok [] := by
  have h := fetch_comments_batch_skips_caught_failures
    (fun _ => HTTPResult.response 404 none) [1, 2] (by intro i _; rfl)
  exact h

/-- C6: no payload whose deleted flag is true ever appears in the result
list of fetch_comments_batch. -/
theorem fetch_comments_batch_excludes_deleted :
    ∀ (remote : Int → HTTPResult) (ids : List Int) (result : List ItemPayload)
      (p : ItemPayload),
      fetch_comments_batch remote ids = Except.ok result → p ∈ result →
      p.deleted ≠ some true := by
  intro remote ids
  induction ids with
  | nil =>
    intro result p h hp
    have : ([] : List ItemPayload) = result := by
      have h0 : fetch_comments_batch remote [] = Except.ok [] := rfl
      rw [h0] at h
      exact Except.ok.inj h
    rw [← this] at hp
    cases hp
  | cons i rest ih =>
    intro result p h hp
    rw [show fetch_comments_batch remote (i :: rest) =
      (match fetch_comment i (remote i) with
        | .error (.hnApiError _) => fetch_comments_batch remote rest
        | .error (.validationError _) => fetch_comments_batch remote rest
        | .error e => .error e
        | .ok none => fetch_comments_batch remote rest
        | .ok (some payload) =>
          if payload.deleted = some true then
            fetch_comments_batch remote rest
          else
            match fetch_comments_batch remote rest with
            | .error e => .error e
            | .ok tail => .ok (payload :: tail)) from rfl] at h
    cases hfc : fetch_comment i (remote i) with
    | error e =>
      rw [hfc] at h
      cases e with
      | hnApiError m => exact ih result p h hp
      | validationError m => exact ih result p h hp
      | httpStatusError s => cases h
      | databaseError m => cases h
      | valueError m => cases h
    | ok ob =>
      rw [hfc] at h
      cases ob with
      | none => exact ih result p h hp
      | some payload =>
        replace h : (if payload.deleted = some true then
                      fetch_comments_batch remote rest
                    else
                      match fetch_comments_batch remote rest with
                      | .error e => .error e
                      | .ok tail => .ok (payload :: tail)) =
            Except.ok result := h
        by_cases hd : payload.deleted = some true
        · rw [if_pos hd] at h
          exact ih result p h hp
        · rw [if_neg hd] at h
          cases hbr : fetch_comments_batch remote rest with
          | error e => rw [hbr] at h; cases h
          | ok tail =>
            rw [hbr] at h
            have hres : payload :: tail = result := Except.ok.inj h
            rw [← hres] at hp
            cases hp with
            | head => exact hd
            | tail _ hmem => exact ih tail p hbr hmem

/-- Witness for C6: a concrete batch result and member. -/
theorem fetch_comments_batch_excludes_deleted_witness :
    ({ id := 1, deleted := some false } : ItemPayload).deleted ≠ some true :=
  fetch_comments_batch_excludes_deleted
    (fun _ => HTTPResult.response 200 (some { id := 1, deleted := some false }))
    [1] [{ id := 1, deleted := some false }] { id := 1, deleted := some false }
    rfl (by simp)

theorem find?_append_of_none {α : Type} (p : α → Bool) (l2 : List α) :
    ∀ l1 : List α, l1.find? p = none → (l1 ++ l2).find? p = l2.find? p := by
  intro l1
  induction l1 with
  | nil => intro _; rfl
  | cons a as ih =>
    intro h
    have hpa : p a = false := by
      cases hpa : p a with
      | false => rfl
      | true => rw [List.find?_cons_of_pos _ hpa] at h; cases h
    have has : as.find? p = none := by
      rw [List.find?_cons_of_neg _ (by simp [hpa])] at h
      exact h
    rw [List.cons_append, List.find?_cons_of_neg _ (by simp [hpa]), ih has]

theorem create_story_found (store : StoryStore) (d : StoryData) (r : StoryRow)
    (h : store.rows.find? (fun x => x.hn_id == d.hn_id) = some r) :
    create_story store d = (r, store) := by
  unfold create_story
  rw [h]

theorem create_story_fresh (store : StoryStore) (d : StoryData)
    (h : store.rows.find? (fun x => x.hn_id == d.hn_id) = none) :
    create_story store d =
      ({ id := store.nextId, hn_id := d.hn_id, title := d.title,
         kids_count := d.kids_count, month := d.month,
         descendants_count := d.descendants_count, score := d.score },
       { rows := store.rows ++
           [{ id := store.nextId, hn_id := d.hn_id, title := d.title,
              kids_count := d.kids_count, month := d.month,
              descendants_count := d.descendants_count, score := d.score }],
         nextId := store.nextId + 1 }) := by
  unfold create_story
  rw [h]

/-- C7: create_story is idempotent: when a story with the requested hn_id
already exists, the first matching record is returned and the table is left
unchanged; consequently a second create call with the same data returns the
same record and the same store as the first. -/
theorem create_story_idempotent :
    (∀ (store : StoryStore) (d : StoryData) (r : StoryRow),
       store.rows.find? (fun x => x.hn_id == d.hn_id) = some r →
       create_story store d = (r, store)) ∧
    (∀ (store : StoryStore) (d d2 : StoryData), d2.hn_id = d.hn_id →
       create_story (create_story store d).2 d2 =
         ((create_story store d).1, (create_story store d).2)) := by
  constructor
  · exact create_story_found
  · intro store d d2 hd2
    cases hfind : store.rows.find? (fun x => x.hn_id == d.hn_id) with
    | some r =>
      rw [create_story_found store d r hfind]
      apply create_story_found
      rw [hd2]
      exact hfind
    | none =>
      rw [create_story_fresh store d hfind]
      apply create_story_found
      rw [hd2]
      have hfound : (store.rows ++
          [({ id := store.nextId, hn_id := d.hn_id, title := d.title,
              kids_count := d.kids_count, month := d.month,
              descendants_count := d.descendants_count,
              score := d.score } : StoryRow)]).find?
          (fun x => x.hn_id == d.hn_id) =
          some ({ id := store.nextId, hn_id := d.hn_id, title := d.title,
                  kids_count := d.kids_count, month := d.month,
                  descendants_count := d.descendants_count,
                  score := d.score } : StoryRow) := by
        rw [find?_append_of_none _ _ _ hfind]
        simp [List.find?]
      exact hfound

/-- Witness for C7: the first clause at a store already holding hn_id 42. -/
theorem create_story_idempotent_witness :
    create_story ⟨[{ id := 0, hn_id := 42 }], 1⟩ { hn_id := 42 } =
      ({ id := 0, hn_id := 42 }, ⟨[{ id := 0, hn_id := 42 }], 1⟩) :=
  create_story_idempotent.1 _ _ _ rfl

/-- C1 counterexample: bulk-inserting a comment whose hn_id is already
persisted raises DatabaseError instead of silently skipping the duplicate:
batch_create_comments issues a plain insert, not the conflict-ignoring
upsert that create_comment uses. -/
theorem batch_create_comments_duplicate_raises :
    batch_create_comments
      [{ hn_id := 1, story_id := 10, story_text := "a",
         processed_status := "pending" }]
      [{ hn_id := 1, story_id := 10, story_text := "a" }] =
      Except.error (PyError.databaseError
        "Error batch creating comments: duplicate key value violates unique constraint") := rfl

/-- C1 amended: the bulk comment insert is a plain insert, so a list holding
a comment whose hn_id already exists in the store raises DatabaseError and
persists nothing; only a conflict-free list succeeds, appending all rows and
returning the store-reported inserted count. -/
theorem batch_create_comments_conflict :
    (∀ (store : List CommentRow) (rows : List NewComment),
       (∃ n ∈ rows, n.hn_id ∈ store.map (·.hn_id)) →
       batch_create_comments store rows =
         Except.error (PyError.databaseError
           "Error batch creating comments: duplicate key value violates unique constraint")) ∧
    (∀ (store : List CommentRow) (rows : List NewComment),
       (∀ n ∈ rows, n.hn_id ∉ store.map (·.hn_id)) →
       allDistinct (rows.map (·.hn_id)) = true →
       rows ≠ [] →
       batch_create_comments store rows =
         Except.ok (rows.length, store ++ rows.map insertRow)) := by
  constructor
  · intro store rows h
    obtain ⟨n, hn, hmem⟩ := h
    have hne : rows.isEmpty = false := by
      cases rows with
      | nil => exact absurd hn (List.not_mem_nil n)
      | cons a as => rfl
    have hany : rows.any (fun m => (store.map (·.hn_id)).contains m.hn_id) = true := by
      rw [List.any_eq_true]
      exact ⟨n, hn, by simpa using hmem⟩
    have hcond : (rows.any (fun m => (store.map (·.hn_id)).contains m.hn_id)
        || !allDistinct (rows.map (·.hn_id))) = true := by
      rw [hany]
      rfl
    unfold batch_create_comments
    rw [if_neg (by simp [hne]), if_pos hcond]
  · intro store rows h1 h2 h3
    have hne : rows.isEmpty = false := by
      cases rows with
      | nil => exact absurd rfl h3
      | cons a as => rfl
    have hany : rows.any (fun m => (store.map (·.hn_id)).contains m.hn_id) = false := by
      rw [List.any_eq_false]
      intro m hm
      simpa using h1 m hm
    have hcond : (rows.any (fun m => (store.map (·.hn_id)).contains m.hn_id)
        || !allDistinct (rows.map (·.hn_id))) = false := by
      rw [hany, h2]
      rfl
    unfold batch_create_comments
    rw [if_neg (by rw [hne]; simp), if_neg (by rw [hcond]; simp)]

/-- Witness for C1 amended: both clauses at concrete stores. -/
theorem batch_create_comments_conflict_witness :
    batch_create_comments
      [{ hn_id := 1, story_id := 10, story_text := "a",
         processed_status := "pending" }]
      [{ hn_id := 1, story_id := 10, story_text := "b" }] =
      Except.error (PyError.databaseError
        "Error batch creating comments: duplicate key value violates unique constraint") ∧
    batch_create_comments []
      [{ hn_id := 2, story_id := 10, story_text := "b" }] =
      Except.ok (1, [{ hn_id := 2, story_id := 10, story_text := "b",
                       processed_status := "pending" }]) :=
  ⟨batch_create_comments_conflict.1 _ _
      ⟨{ hn_id := 1, story_id := 10, story_text := "b" }, by simp, by simp⟩,
   batch_create_comments_conflict.2 _ _ (by simp) rfl (by simp)⟩

theorem bulkLoop_keeps_processed (llm : String → Option JobData) :
    ∀ (pending store : List CommentRow) (processed succ failed : Nat),
      (bulkLoop llm store pending processed succ failed).2.1 = processed := by
  intro pending
  induction pending with
  | nil => intro store processed succ failed; rfl
  | cons comment rest ih =>
    intro store processed succ failed
    show (match llm (clean_html_text comment.story_text) with
      | none =>
        bulkLoop llm
          (update_comment_with_results store comment.hn_id none "error").2
          rest processed succ (failed + 1)
      | some d =>
        if (update_comment_with_results store comment.hn_id (some d) "completed").1 then
          bulkLoop llm
            (update_comment_with_results store comment.hn_id (some d) "completed").2
            rest processed (succ + 1) failed
        else
          bulkLoop llm
            (update_comment_with_results store comment.hn_id (some d) "completed").2
            rest processed succ (failed + 1)).2.1 = processed
    cases llm (clean_html_text comment.story_text) with
    | none => exact ih _ _ _ _
    | some d =>
      show (if (update_comment_with_results store comment.hn_id (some d) "completed").1 then
          bulkLoop llm
            (update_comment_with_results store comment.hn_id (some d) "completed").2
            rest processed (succ + 1) failed
        else
          bulkLoop llm
            (update_comment_with_results store comment.hn_id (some d) "completed").2
            rest processed succ (failed + 1)).2.1 = processed
      by_cases hv :
          (update_comment_with_results store comment.hn_id (some d) "completed").1 = true
      · rw [if_pos hv]
        exact ih _ _ _ _
      · rw [if_neg hv]
        exact ih _ _ _ _

/-- C8: the processed_count field of the bulk-mode summary is always 0: the
counter is initialized to 0 before the loop and no loop iteration increments
it. -/
theorem process_pending_comments_processed_count_zero :
    ∀ (llm : String → Option JobData) (store : List CommentRow),
      (process_pending_comments llm store).1.processed_count = 0 := by
  intro llm store
  have h := bulkLoop_keeps_processed llm (get_pending_comments store) store 0 0 0
  unfold process_pending_comments
  rcases hb : bulkLoop llm store (get_pending_comments store) 0 0 0 with
    ⟨store2, processed, succ, failed⟩
  rw [hb] at h
  simp only [hb]
  simpa using h

/-- C2 at the failing input: single-mode extraction whose LLM call yields no
structured data persists the comment with status completed and a null
payload (process_single_comment passes no status on line 128, so
_update_comment_with_results falls back to its completed default), the very
shape the claim says never occurs. -/
theorem process_single_comment_completed_null_payload :
    (process_single_comment (fun _ => none)
      [{ hn_id := 5, story_id := 1, story_text := "hello",
         processed_status := "pending" }] 5).2 =
    [{ hn_id := 5, story_id := 1, story_text := "hello",
       processed_status := "completed", structured_data := none,
       email := none }] := rfl

/-- C5: single-mode extraction for a forum id with no comment record returns
the failure dict with the exact not-found message and leaves the store
untouched. -/
theorem process_single_comment_not_found :
    ∀ (llm : String → Option JobData) (store : List CommentRow) (i : Int),
      get_comments_by_hn_id store i = [] →
      process_single_comment llm store i =
        ({ success := false, hn_id := i,
           error := some ("No comment found with HN ID " ++ toString i) },
         store) := by
  intro llm store i h
  unfold process_single_comment
  rw [h]

/-- Witness for C5: an empty store and hn_id 3. -/
theorem process_single_comment_not_found_witness :
    process_single_comment (fun _ => none) [] 3 =
      ({ success := false, hn_id := 3,
         error := some "No comment found with HN ID 3" }, []) :=
  process_single_comment_not_found (fun _ => none) [] 3 rfl

/-- C10: when the update payload is a non-null dict whose email is null, the
email column of every row is left as it was; the email column is cleared
(set to null on the matching rows) exactly by the null-payload branch. -/
theorem update_comment_status_email_policy :
    (∀ (store : List CommentRow) (i : Int) (status : String) (d : JobData),
       d.email = none →
       ((update_comment_status store i status (some d)).2).map (·.email) =
         store.map (·.email)) ∧
    (∀ (store : List CommentRow) (i : Int) (status : String) (r : CommentRow),
       r ∈ (update_comment_status store i status none).2 → r.hn_id = i →
       r.email = none) := by
  constructor
  · intro store i status d hd
    show (store.map (fun r =>
        if r.hn_id == i then applyCommentUpdate status (some d) r else r)).map
        (·.email) = store.map (·.email)
    rw [List.map_map]
    apply List.map_congr_left
    intro r _
    by_cases hr : r.hn_id = i
    · simp [hr, applyCommentUpdate, hd]
    · simp [hr]
  · intro store i status r hr hri
    have hmem : r ∈ store.map (fun r0 =>
        if r0.hn_id == i then applyCommentUpdate status none r0 else r0) := hr
    rcases List.mem_map.mp hmem with ⟨r0, _, heq⟩
    by_cases h0 : (r0.hn_id == i) = true
    · rw [if_pos h0] at heq
      rw [← heq]
      rfl
    · rw [if_neg h0] at heq
      rw [← heq] at hri
      exact absurd (beq_iff_eq.mpr hri) h0

/-- Witness for C10: both clauses at a concrete store that already holds an
email. -/
theorem update_comment_status_email_policy_witness :
    ((update_comment_status
        [{ hn_id := 9, story_id := 1, story_text := "t",
           processed_status := "pending", structured_data := none,
           email := some "a@b.c" }] 9 "completed"
        (some { email := none })).2).map (·.email) = [some "a@b.c"] ∧
    (({ hn_id := 9, story_id := 1, story_text := "t",
        processed_status := "error", structured_data := none,
        email := none } : CommentRow).email = none) :=
  ⟨update_comment_status_email_policy.1
      [{ hn_id := 9, story_id := 1, story_text := "t",
         processed_status := "pending", structured_data := none,
         email := some "a@b.c" }] 9 "completed" { email := none } rfl,
   update_comment_status_email_policy.2
      [{ hn_id := 9, story_id := 1, story_text := "t",
         processed_status := "pending", structured_data := none,
         email := some "x@y.z" }] 9 "error"
      { hn_id := 9, story_id := 1, story_text := "t",
        processed_status := "error", structured_data := none, email := none }
      (by simp [update_comment_status, applyCommentUpdate]) rfl⟩

end HNBackend
